import Mathlib

/-!
Verification of the DPA compliance analysis engine.

Shallow embedding of the engine's Python sources:
  * `pii_detector.py`        — PII categorization and indicator records;
  * `dpa_compliance_checker.py` — the traditional rule evaluator
    (`_check_violations`, `_assess_risk_level`, `_generate_recommendations`,
    `_traditional_analysis`);
  * `enhanced_dpa_knowledge_v2.py` — the knowledge base (loading, lookups,
    `search_content`, `check_violation`, `get_comprehensive_analysis`);
  * `mistral_analyzer.py`    — the reconciliation layer (`_combine_analyses`,
    `_is_duplicate_violation`, `_is_duplicate_recommendation`) and the
    image-analysis error report.

Python dicts are embedded as association lists (`List (String × _)`), which
preserves both key lookup and insertion order; Python strings are `String`
with the ASCII-relevant operations mirrored below.  Nondeterministic values
(`datetime.now().isoformat()`) are threaded as explicit parameters.
-/

namespace DPA

/-! ## String utilities mirroring Python string operations -/

/-- Python `pat in hay` for strings: `pat` occurs as a contiguous substring
of `hay` (the empty pattern always occurs). -/
def strIn (pat : List Char) : List Char → Bool
  | [] => pat.isEmpty
  | c :: rest => pat.isPrefixOf (c :: rest) || strIn pat rest

/-- Python `pat in hay` at `String` level. -/
def pyIn (pat hay : String) : Bool := strIn pat.data hay.data

/-- Python `s.lower()`: character-wise lowercasing (ASCII suffices for every
literal the sources compare; defined over the character list so that it
evaluates inside the kernel). -/
def pyLower (s : String) : String := String.mk (s.data.map Char.toLower)

/-- Helper for `countOccur`: scan left to right, counting non-overlapping
occurrences of the (non-empty) pattern, skipping past each match.  The
`fuel` argument makes the recursion structural so the definition reduces in
the kernel; every call consumes at least one character of the list, so fuel
equal to the initial list length never runs out. -/
def countOccurGo (pat : List Char) : Nat → List Char → Nat
  | _, [] => 0
  | 0, _ => 0
  | fuel + 1, c :: rest =>
    if pat.isPrefixOf (c :: rest) then
      1 + countOccurGo pat fuel (List.drop (pat.length - 1) rest)
    else
      countOccurGo pat fuel rest

/-- Python `hay.count(pat)`: number of non-overlapping occurrences of `pat`
in `hay`, scanning left to right (for the empty pattern Python returns
`len(hay) + 1`). -/
def countOccur (pat hay : String) : Nat :=
  if pat.data.isEmpty then hay.data.length + 1
  else countOccurGo pat.data hay.data.length hay.data

/-- A regex word character (Python `\w`, restricted to ASCII as used by the
sources). -/
def isWordChar (c : Char) : Bool := c.isAlphanum || c == '_'

/-- Boundary test before a match for Python `\b`: start of string or a
non-word character. -/
def boundaryBefore : Option Char → Bool
  | none => true
  | some c => !isWordChar c

/-- Boundary test after a match for Python `\b`: end of string or a
non-word character. -/
def boundaryAfter : List Char → Bool
  | [] => true
  | c :: _ => !isWordChar c

/-- Helper for `searchWord`: does the pattern occur starting at some
position, with word boundaries on both sides?  `prev` is the character
just before the current position. -/
def searchWordGo (pat : List Char) (prev : Option Char) : List Char → Bool
  | [] => false
  | c :: rest =>
    (boundaryBefore prev && pat.isPrefixOf (c :: rest)
      && boundaryAfter (List.drop pat.length (c :: rest)))
    || searchWordGo pat (some c) rest

/-- Python `re.search(r"\b<pat>\b", text, re.IGNORECASE)` as a Boolean:
the pattern occurs somewhere in the text, delimited by word boundaries,
case-insensitively (both sides lowered, as the sources' patterns are ASCII). -/
def searchWord (pat text : String) : Bool :=
  searchWordGo (pyLower pat).data none (pyLower text).data

/-! ## Data model shared between the modules -/

/-- A detected PII item as built by `EnhancedPIIDetector.detect_pii`
(`pii_detector.py`).  `stop` embeds the dict key `"end"` (a Lean keyword);
`confidence` is a numeric score in the source, carried here as an opaque
string since no verified property reads it.  `sensitive` embeds the
optional dict key `"sensitive"` which `detect_pii` never sets but
`EnhancedDPAKnowledgeV2.check_violation` reads with `.get("sensitive",
False)`. -/
structure PIIItem where
  entity_type : String
  text : String
  start : Nat
  stop : Nat
  confidence : String
  is_sensitive : Bool
  sensitive : Option Bool
deriving DecidableEq

/-- Result of `EnhancedPIIDetector.categorize_pii`. -/
structure PIICategorized where
  regular_pii : List PIIItem
  sensitive_pii : List PIIItem
  total_pii_count : Nat
  sensitive_count : Nat
  regular_count : Nat
deriving DecidableEq

/-- Entity types treated as sensitive by `categorize_pii` in addition to an
item's own `is_sensitive` flag. -/
def sensitiveEntityTypes : List String :=
  ["HEALTH_INFO", "RELIGIOUS_INFO", "FINANCIAL_INFO",
   "PH_TIN", "PH_SSS", "PH_PHILHEALTH"]

/-- `EnhancedPIIDetector.categorize_pii` (`pii_detector.py`): partition the
detected items into regular and sensitive and record the counts. -/
def categorize_pii (pii_results : List PIIItem) : PIICategorized :=
  let sensitive_pii := pii_results.filter
    (fun p => p.is_sensitive || sensitiveEntityTypes.contains p.entity_type)
  let regular_pii := pii_results.filter
    (fun p => !(p.is_sensitive || sensitiveEntityTypes.contains p.entity_type))
  { regular_pii := regular_pii
    sensitive_pii := sensitive_pii
    total_pii_count := pii_results.length
    sensitive_count := sensitive_pii.length
    regular_count := regular_pii.length }

/-- A consent- or purpose-indicator record as built by
`detect_consent_indicators` / `detect_purpose_statements`
(`pii_detector.py`); `stop` embeds the dict key `"end"`. -/
structure Indicator where
  txt : String
  start : Nat
  stop : Nat
  pattern : String
deriving DecidableEq

/-- A loaded statute section: the `title`/`content` record stored under a
section-number key in the knowledge base JSON. -/
structure SectionRec where
  title : String
  content : String
deriving DecidableEq

namespace KBV2

/-- A definition record from the knowledge base JSON;
`get_definition` returns it whole, `_prepare_dpa_context` reads its
`definition` field. -/
structure DefinitionRec where
  term : String
  definition : String
deriving DecidableEq

/-- A penalty record from the knowledge base JSON
(`title`, `fines`, `imprisonment`). -/
structure PenaltyRec where
  title : String
  fines : List String
  imprisonment : List String
deriving DecidableEq

/-- One entry of the knowledge base's `search_index` (an arbitrary JSON
object in the source; `search_content` reads it back verbatim and its sort
key defaults a missing `relevance` to 1) and also one section-derived search
result (`type = "section_content"` with `relevance` always set).
`sec` embeds the dict key `"section"` (a Lean keyword). -/
structure SearchResult where
  type : String
  sec : String
  title : String
  relevance : Option Nat
deriving DecidableEq

/-- The in-memory state of `EnhancedDPAKnowledgeV2`: the component dicts
loaded by `load_knowledge_base`, as insertion-ordered association lists.
The payloads of the components no verified property inspects
(`data_subject_rights`, `npc_functions`, `processing_principles`,
`compliance_rules`) are carried as opaque string pairs. -/
structure KBState where
  sections : List (String × SectionRec)
  definitions : List (String × DefinitionRec)
  penalties : List (String × PenaltyRec)
  rights : List (String × String)
  functions : List (String × String)
  principles : List (String × String)
  compliance_rules : List (String × String)
  search_index : List (String × List SearchResult)
deriving DecidableEq

/-- The parsed backing JSON file `data/output/enhanced_dpa_knowledge_v2.json`;
each field is `Option` because `load_knowledge_base` reads every component
with `.get(key, {})`. -/
structure KBFile where
  sections : Option (List (String × SectionRec))
  definitions : Option (List (String × DefinitionRec))
  penalties : Option (List (String × PenaltyRec))
  data_subject_rights : Option (List (String × String))
  npc_functions : Option (List (String × String))
  processing_principles : Option (List (String × String))
  compliance_rules : Option (List (String × String))
  search_index : Option (List (String × List SearchResult))
deriving DecidableEq

/-- `EnhancedDPAKnowledgeV2.load_knowledge_base`
(`enhanced_dpa_knowledge_v2.py` lines 26-46): when the backing data file is
absent (`none`) every component stays at its initial empty dict; otherwise
each component is read with `.get(key, {})`. -/
def load_knowledge_base : Option KBFile → KBState
  | none =>
    { sections := [], definitions := [], penalties := [], rights := []
      functions := [], principles := [], compliance_rules := []
      search_index := [] }
  | some f =>
    { sections := f.sections.getD []
      definitions := f.definitions.getD []
      penalties := f.penalties.getD []
      rights := f.data_subject_rights.getD []
      functions := f.npc_functions.getD []
      principles := f.processing_principles.getD []
      compliance_rules := f.compliance_rules.getD []
      search_index := f.search_index.getD [] }

/-- `EnhancedDPAKnowledgeV2.get_section`: `self.sections.get(str(n), {})`.
`none` stands for the empty sentinel dict `{}` the source returns for an
unknown key. -/
def get_section (kb : KBState) (section_number : String) : Option SectionRec :=
  kb.sections.lookup section_number

/-- `EnhancedDPAKnowledgeV2.get_definition`: scan the definitions dict in
order and return the first whose key contains, or is contained in, the
lowercased query term; `None` when no key matches (in particular on the
empty knowledge base). -/
def get_definition (kb : KBState) (term : String) : Option DefinitionRec :=
  let term_lower := pyLower term
  (kb.definitions.find? fun p => pyIn term_lower p.1 || pyIn p.1 term_lower).map
    fun p => p.2

/-- `EnhancedDPAKnowledgeV2.get_penalty_info`: `self.penalties.get(str(n), {})`,
with `none` for the empty sentinel dict. -/
def get_penalty_info (kb : KBState) (section_number : String) : Option PenaltyRec :=
  kb.penalties.lookup section_number

/-- The section-derived search record `search_content` appends for a section
whose (lowercased) content contains the lowercased keyword. -/
def sectionSearchResult (keyword_lower : String) (p : String × SectionRec) :
    SearchResult :=
  { type := "section_content"
    sec := p.1
    title := p.2.title
    relevance := some (countOccur keyword_lower (pyLower p.2.content)) }

/-- Stable insertion for a descending sort by a `Nat` key: walk past
strictly greater keys, so that equal keys keep their original relative
order — exactly the behaviour of Python's stable `list.sort(key=...,
reverse=True)`. -/
def insertDesc (key : SearchResult → Nat) (a : SearchResult) :
    List SearchResult → List SearchResult
  | [] => [a]
  | b :: l => if key b > key a then b :: insertDesc key a l else a :: b :: l

/-- Stable descending sort by a `Nat` key (Python
`results.sort(key=..., reverse=True)`). -/
def sortDesc (key : SearchResult → Nat) : List SearchResult → List SearchResult
  | [] => []
  | a :: l => insertDesc key a (sortDesc key l)

/-- The sort key of `search_content`: `x.get("relevance", 1)`. -/
def relevanceKey (r : SearchResult) : Nat := r.relevance.getD 1

/-- The search-index part of `search_content`
(`results.extend(self.search_index[keyword_lower][:limit])`, guarded by the
key's presence). -/
def indexResults (kb : KBState) (keyword_lower : String) (limit : Nat) :
    List SearchResult :=
  match kb.search_index.lookup keyword_lower with
  | some entries => entries.take limit
  | none => []

/-- The section-scan part of `search_content`: one record for every section
whose lowercased content contains the lowercased keyword. -/
def sectionResults (kb : KBState) (keyword_lower : String) :
    List SearchResult :=
  kb.sections.filterMap fun p =>
    if pyIn keyword_lower (pyLower p.2.content) then
      some (sectionSearchResult keyword_lower p)
    else none

/-- `EnhancedDPAKnowledgeV2.search_content` (`enhanced_dpa_knowledge_v2.py`
lines 82-104): up to `limit` hits from the search index for the lowercased
keyword; then, when fewer than `limit` index hits were found, the section
scan is appended; finally a stable descending sort on relevance and
truncation to `limit`. -/
def search_content (kb : KBState) (keyword : String) (limit : Nat) :
    List SearchResult :=
  let keyword_lower := pyLower keyword
  let fromIndex := indexResults kb keyword_lower limit
  let results :=
    if fromIndex.length < limit then fromIndex ++ sectionResults kb keyword_lower
    else fromIndex
  (sortDesc relevanceKey results).take limit

end KBV2

/-- A recommendation record.  The baseline generators
(`_generate_recommendations` in `dpa_compliance_checker.py` and
`generate_recommendations` in `enhanced_dpa_knowledge_v2.py`) emit
`priority`/`action`/`description`/`section_reference`; reconciliation
(`_combine_analyses`) additionally sets `implementation` and
`source = "mistral_ai"` on merged entries, so those two are optional. -/
structure Recommendation where
  priority : String
  action : String
  description : String
  section_reference : String
  implementation : Option String
  source : Option String
deriving DecidableEq

/-- A violation record in the knowledge-base/reconciled shape.  The baseline
evaluator (`EnhancedDPAKnowledgeV2.check_violation`) emits
`section`/`title`/`violation`/`severity`/`description`/`dpa_reference`;
reconciliation's `standard_violation` conversion instead sets
`details`/`confidence`/`source` and no `dpa_reference`, so those four are
optional.  `sec` embeds the dict key `"section"` (a Lean keyword). -/
structure KBViolation where
  sec : String
  title : String
  violation : String
  severity : String
  description : String
  dpa_reference : Option String
  details : Option String
  confidence : Option String
  source : Option String
deriving DecidableEq

namespace KBV2

/-- `EnhancedDPAKnowledgeV2._has_consent_indicators`: any consent keyword is
a substring of the (already lowercased) text. -/
def has_consent_indicators (text : String) : Bool :=
  ["consent", "agree", "permission", "authorize", "approval",
   "opt-in", "accept", "acknowledge", "voluntary"].any fun k => pyIn k text

/-- `EnhancedDPAKnowledgeV2._has_explicit_consent`. -/
def has_explicit_consent (text : String) : Bool :=
  ["explicit consent", "specific consent", "express consent",
   "written consent", "informed consent", "clear consent"].any fun k =>
    pyIn k text

/-- `EnhancedDPAKnowledgeV2._has_transparency_indicators`. -/
def has_transparency_indicators (text : String) : Bool :=
  ["purpose", "notification", "inform", "disclose", "explain",
   "privacy policy", "data use", "processing purpose"].any fun k => pyIn k text

/-- `EnhancedDPAKnowledgeV2._has_security_measures`. -/
def has_security_measures (text : String) : Bool :=
  ["security", "encryption", "protection", "safeguard", "secure",
   "confidential", "access control", "authentication", "firewall"].any fun k =>
    pyIn k text

/-- The truncated statute excerpt embedded in a baseline violation:
`self.get_section(n).get("content", "")[:200] + "..."`. -/
def sectionExcerpt (kb : KBState) (n : String) : String :=
  (((get_section kb n).map SectionRec.content).getD "").take 200 ++ "..."

/-- `EnhancedDPAKnowledgeV2.check_violation` (`enhanced_dpa_knowledge_v2.py`
lines 106-157).  Note that the Section 13 branch filters the detected items
with `item.get("sensitive", False)`: the items built by
`EnhancedPIIDetector.detect_pii` carry `is_sensitive` but no `sensitive`
key, so for those the getter yields its default `False`. -/
def check_violation (kb : KBState) (text : String) (pii_data : List PIIItem) :
    List KBViolation :=
  let text_lower := pyLower text
  let v12 : List KBViolation :=
    if !pii_data.isEmpty && !has_consent_indicators text_lower then
      [{ sec := "12"
         title := "Criteria for Lawful Processing of Personal Information"
         violation := "Processing without consent"
         severity := "HIGH"
         description := "Personal information appears to be processed without clear consent from data subjects"
         dpa_reference := some (sectionExcerpt kb "12")
         details := none, confidence := none, source := none }]
    else []
  let sensitive_pii := pii_data.filter fun item => item.sensitive.getD false
  let v13 : List KBViolation :=
    if !sensitive_pii.isEmpty && !has_explicit_consent text_lower then
      [{ sec := "13"
         title := "Sensitive Personal Information and Privileged Information"
         violation := "Processing sensitive information without explicit consent"
         severity := "CRITICAL"
         description := "Sensitive personal information detected without explicit consent provisions"
         dpa_reference := some (sectionExcerpt kb "13")
         details := none, confidence := none, source := none }]
    else []
  let v16 : List KBViolation :=
    if !pii_data.isEmpty && !has_transparency_indicators text_lower then
      [{ sec := "16"
         title := "Rights of the Data Subject"
         violation := "Lack of transparency in data processing"
         severity := "MEDIUM"
         description := "Data subjects may not be adequately informed about data processing"
         dpa_reference := some (sectionExcerpt kb "16")
         details := none, confidence := none, source := none }]
    else []
  let v20 : List KBViolation :=
    if !has_security_measures text_lower then
      [{ sec := "20"
         title := "Security of Personal Information"
         violation := "Inadequate security measures"
         severity := "HIGH"
         description := "Document does not demonstrate adequate security measures for personal information"
         dpa_reference := some (sectionExcerpt kb "20")
         details := none, confidence := none, source := none }]
    else []
  v12 ++ v13 ++ v16 ++ v20

/-- `EnhancedDPAKnowledgeV2.generate_recommendations`
(`enhanced_dpa_knowledge_v2.py` lines 159-201). -/
def generate_recommendations (violations : List KBViolation)
    (pii_data : List PIIItem) : List Recommendation :=
  let violation_sections := violations.map fun v => v.sec
  (if violation_sections.contains "12" || violation_sections.contains "13" then
    [{ priority := "CRITICAL"
       action := "Implement proper consent mechanisms"
       description := "Establish clear, specific, and informed consent procedures before collecting personal information"
       section_reference := "Section 12 - Criteria for Lawful Processing"
       implementation := none, source := none }]
   else []) ++
  (if violation_sections.contains "16" then
    [{ priority := "HIGH"
       action := "Enhance transparency and data subject notifications"
       description := "Provide clear information about data processing purposes, methods, and data subject rights"
       section_reference := "Section 16 - Rights of the Data Subject"
       implementation := none, source := none }]
   else []) ++
  (if violation_sections.contains "20" then
    [{ priority := "HIGH"
       action := "Implement comprehensive security measures"
       description := "Deploy organizational, physical, and technical safeguards to protect personal information"
       section_reference := "Section 20 - Security of Personal Information"
       implementation := none, source := none }]
   else []) ++
  (if !pii_data.isEmpty then
    [{ priority := "MEDIUM"
       action := "Conduct data protection impact assessment"
       description := "Evaluate the risks and implement appropriate measures for personal data processing"
       section_reference := "Section 11 - General Data Privacy Principles"
       implementation := none, source := none }]
   else [])

/-- The metadata record of `get_comprehensive_analysis`; `analysis_date`
(`datetime.now().isoformat()` in the source) is threaded as the explicit
parameter `now`. -/
structure AnalysisMetadata where
  knowledge_base_version : String
  analysis_date : String
  sections_analyzed : Nat
  total_pii_found : Nat
deriving DecidableEq

/-- The baseline analysis record returned by `get_comprehensive_analysis`. -/
structure KBAnalysis where
  compliance_status : String
  risk_level : String
  violations : List KBViolation
  recommendations : List Recommendation
  analysis_metadata : AnalysisMetadata
deriving DecidableEq

/-- `EnhancedDPAKnowledgeV2.get_comprehensive_analysis`
(`enhanced_dpa_knowledge_v2.py` lines 249-281). -/
def get_comprehensive_analysis (kb : KBState) (text : String)
    (pii_data : List PIIItem) (now : String) : KBAnalysis :=
  let violations := check_violation kb text pii_data
  let recommendations := generate_recommendations violations pii_data
  let risk_level :=
    if violations.isEmpty then "LOW"
    else
      let critical_violations := violations.filter fun v => v.severity == "CRITICAL"
      let high_violations := violations.filter fun v => v.severity == "HIGH"
      if !critical_violations.isEmpty then "CRITICAL"
      else if high_violations.length >= 2 then "HIGH"
      else if !high_violations.isEmpty then "MEDIUM"
      else "LOW"
  let compliance_status := if violations.isEmpty then "COMPLIANT" else "NON-COMPLIANT"
  { compliance_status := compliance_status
    risk_level := risk_level
    violations := violations
    recommendations := recommendations
    analysis_metadata :=
      { knowledge_base_version := "v2"
        analysis_date := now
        sections_analyzed := kb.sections.length
        total_pii_found := pii_data.length } }

end KBV2

namespace Checker

/-- A violation record as built by `DPAComplianceChecker._check_violations`
(`dpa_compliance_checker.py`).  `sec` embeds the dict key `"section"`
(a Lean keyword). -/
structure CheckerViolation where
  sec : String
  violation_type : String
  title : String
  description : String
  severity : String
  details : String
  affected_data : List String
  dpa_reference : String
deriving DecidableEq

/-- `DPAComplianceChecker._get_section_summary` (`dpa_compliance_checker.py`
lines 153-163): first sentence of the section content, truncated to 100
characters.  `none` stands for the falsy empty dict `{}` that
`get_section` returns for an unknown section. -/
def get_section_summary : Option SectionRec → String
  | none => "Section content not available"
  | some s =>
    match s.content.splitOn ". " with
    | [] => s.content.take 100 ++ "..."
    | first :: _ => first.take 100 ++ "..."

/-- The fixed insecurity keyword patterns of `_check_security_violations`.
In the source each is the raw regex `\b<literal>\b`; the word-boundary
wrapper is interpreted by `searchWord` and re-attached textually where the
source formats the pattern into the violation's `details`. -/
def unencrypted_patterns : List String :=
  ["unencrypted", "plain text", "no encryption",
   "unsecured", "no password", "no security"]

/-- The Section 20 violation record `_check_security_violations` appends for
the first matching pattern.  The two `\b` occurrences in `details`
reproduce the raw regex text the source interpolates there. -/
def security_violation (pattern : String) (section_20_data : Option SectionRec) :
    CheckerViolation :=
  { sec := "Section 20"
    violation_type := "inadequate_security"
    title := ((section_20_data.map SectionRec.title).getD
      "Security of Personal Information")
    description := "Inadequate security measures for personal information as required by Section 20"
    severity := "HIGH"
    details := "Security concern detected: \\b" ++ pattern
      ++ "\\b. Section 20 requires: " ++ get_section_summary section_20_data
    affected_data := []
    dpa_reference := ((section_20_data.map SectionRec.content).getD "").take 200
      ++ "..." }

/-- `DPAComplianceChecker._check_security_violations`
(`dpa_compliance_checker.py` lines 165-189): scan the fixed patterns in
order and report only the first that matches (the source's `break`). -/
def check_security_violations (text : String)
    (section_20_data : Option SectionRec) : List CheckerViolation :=
  match unencrypted_patterns.find? (fun p => searchWord p text) with
  | some pattern => [security_violation pattern section_20_data]
  | none => []

/-- `DPAComplianceChecker._check_violations` (`dpa_compliance_checker.py`
lines 85-151). -/
def check_violations (kb : KBV2.KBState) (text : String)
    (pii_categorized : PIICategorized)
    (consent_indicators purpose_indicators : List Indicator) :
    List CheckerViolation :=
  let section_12 := KBV2.get_section kb "12"
  let section_13 := KBV2.get_section kb "13"
  let section_11 := KBV2.get_section kb "11"
  let section_20 := KBV2.get_section kb "20"
  let v12 : List CheckerViolation :=
    if pii_categorized.total_pii_count > 0 && consent_indicators.isEmpty then
      [{ sec := "Section 12"
         violation_type := "unauthorized_processing"
         title := ((section_12.map SectionRec.title).getD
           "Criteria for Lawful Processing of Personal Information")
         description := "Personal information detected without evidence of consent or other lawful basis as required by Section 12"
         severity := "HIGH"
         details := "Found " ++ toString pii_categorized.total_pii_count
           ++ " PII instances without consent indicators. Section 12 requires: "
           ++ get_section_summary section_12
         affected_data := (pii_categorized.regular_pii.take 5).map PIIItem.text
         dpa_reference := ((section_12.map SectionRec.content).getD "").take 200
           ++ "..." }]
    else []
  let v13 : List CheckerViolation :=
    if pii_categorized.sensitive_count > 0 then
      [{ sec := "Section 13"
         violation_type := "inadequate_spi_protection"
         title := ((section_13.map SectionRec.title).getD
           "Sensitive Personal Information and Privileged Information")
         description := "Sensitive personal information detected without adequate protection measures as required by Section 13"
         severity := "CRITICAL"
         details := "Found " ++ toString pii_categorized.sensitive_count
           ++ " sensitive PII instances. Section 13 states: "
           ++ get_section_summary section_13
         affected_data := (pii_categorized.sensitive_pii.take 5).map PIIItem.text
         dpa_reference := ((section_13.map SectionRec.content).getD "").take 200
           ++ "..." }]
    else []
  let v11a : List CheckerViolation :=
    if pii_categorized.total_pii_count > 0 && purpose_indicators.isEmpty then
      [{ sec := "Section 11"
         violation_type := "lack_of_transparency"
         title := ((section_11.map SectionRec.title).getD
           "General Data Privacy Principles")
         description := "Personal information processing without clear purpose statement violates transparency principle"
         severity := "MEDIUM"
         details := "No purpose statement found for data processing. Section 11 requires: "
           ++ get_section_summary section_11
         affected_data := []
         dpa_reference := ((section_11.map SectionRec.content).getD "").take 200
           ++ "..." }]
    else []
  let v11b : List CheckerViolation :=
    if pii_categorized.total_pii_count > 10 then
      [{ sec := "Section 11"
         violation_type := "excessive_processing"
         title := ((section_11.map SectionRec.title).getD
           "General Data Privacy Principles")
         description := "Potentially excessive personal information processing violates proportionality principle"
         severity := "MEDIUM"
         details := "Large amount of PII detected ("
           ++ toString pii_categorized.total_pii_count
           ++ " instances) may violate proportionality requirements"
         affected_data := []
         dpa_reference := ((section_11.map SectionRec.content).getD "").take 200
           ++ "..." }]
    else []
  v12 ++ v13 ++ v11a ++ v11b ++ check_security_violations text section_20

/-- `DPAComplianceChecker._assess_risk_level` (`dpa_compliance_checker.py`
lines 191-204). -/
def assess_risk_level (violations : List CheckerViolation)
    (pii_categorized : PIICategorized) : String :=
  if violations.isEmpty then "LOW"
  else
    let critical_count := violations.countP fun v => v.severity == "CRITICAL"
    let high_count := violations.countP fun v => v.severity == "HIGH"
    if critical_count > 0 || pii_categorized.sensitive_count > 5 then "CRITICAL"
    else if high_count > 0 || pii_categorized.total_pii_count > 10 then "HIGH"
    else "MEDIUM"

/-- `DPAComplianceChecker._generate_recommendations`
(`dpa_compliance_checker.py` lines 206-261). -/
def generate_recommendations (violations : List CheckerViolation)
    (pii_categorized : PIICategorized) : List Recommendation :=
  let violation_types := violations.map fun v => v.violation_type
  (if violation_types.contains "unauthorized_processing" then
    [{ priority := "HIGH"
       action := "Obtain proper consent"
       description := "Implement consent mechanisms before processing personal information"
       section_reference := "Section 12"
       implementation := none, source := none }]
   else []) ++
  (if violation_types.contains "inadequate_spi_protection" then
    [{ priority := "CRITICAL"
       action := "Enhance SPI protection"
       description := "Implement additional security measures for sensitive personal information"
       section_reference := "Section 13, Section 20"
       implementation := none, source := none }]
   else []) ++
  (if violation_types.contains "lack_of_transparency" then
    [{ priority := "MEDIUM"
       action := "Add purpose statements"
       description := "Clearly state the purpose for processing personal information"
       section_reference := "Section 11"
       implementation := none, source := none }]
   else []) ++
  (if violation_types.contains "excessive_processing" then
    [{ priority := "MEDIUM"
       action := "Review data minimization"
       description := "Ensure only necessary personal information is processed"
       section_reference := "Section 11"
       implementation := none, source := none }]
   else []) ++
  (if violation_types.contains "inadequate_security" then
    [{ priority := "HIGH"
       action := "Implement security measures"
       description := "Deploy appropriate technical and organizational security measures"
       section_reference := "Section 20"
       implementation := none, source := none }]
   else []) ++
  (if pii_categorized.total_pii_count > 0 then
    [{ priority := "LOW"
       action := "Conduct privacy impact assessment"
       description := "Perform a comprehensive privacy impact assessment for this document"
       section_reference := "General DPA Compliance"
       implementation := none, source := none }]
   else [])

/-- The report built by `DPAComplianceChecker._traditional_analysis`;
`analysis_date` (`datetime.now().isoformat()`) is threaded as the explicit
parameter `now`. -/
structure ComplianceReport where
  document_name : String
  analysis_date : String
  pii_summary : PIICategorized
  consent_indicators : List Indicator
  purpose_indicators : List Indicator
  violations : List CheckerViolation
  compliance_status : String
  risk_level : String
  recommendations : List Recommendation
  analysis_type : String
deriving DecidableEq

/-- `DPAComplianceChecker._traditional_analysis` (`dpa_compliance_checker.py`
lines 61-83). -/
def traditional_analysis (kb : KBV2.KBState) (text document_name now : String)
    (pii_categorized : PIICategorized)
    (consent_indicators purpose_indicators : List Indicator) :
    ComplianceReport :=
  let violations :=
    check_violations kb text pii_categorized consent_indicators purpose_indicators
  { document_name := document_name
    analysis_date := now
    pii_summary := pii_categorized
    consent_indicators := consent_indicators
    purpose_indicators := purpose_indicators
    violations := violations
    compliance_status := if violations.isEmpty then "COMPLIANT" else "NON-COMPLIANT"
    risk_level := assess_risk_level violations pii_categorized
    recommendations := generate_recommendations violations pii_categorized
    analysis_type := "traditional" }

end Checker

namespace Mistral

/-- A violation candidate parsed from the external model's JSON response
(`_parse_ai_response`).  Every field is optional because `_combine_analyses`
and `_is_duplicate_violation` read each with `.get(key, default)`;
`confidence` (a JSON number, default `0.8`) is carried as an opaque string
since no verified property reads its value.  `sec` embeds the dict key
`"section"` (a Lean keyword). -/
structure AIViolation where
  sec : Option String
  violation_type : Option String
  severity : Option String
  description : Option String
  legal_basis : Option String
  confidence : Option String
deriving DecidableEq

/-- A recommendation candidate parsed from the external model's response. -/
structure AIRecommendation where
  priority : Option String
  action : Option String
  description : Option String
  section_reference : Option String
  implementation : Option String
deriving DecidableEq

/-- The `ai_risk_assessment` object of the external model's response;
`overall_risk` is read with a truthiness test
(`if ai_risk.get("overall_risk"):`), so it is optional and the empty string
counts as absent. -/
structure RiskAssessment where
  overall_risk : Option String
  risk_factors : List String
  mitigation_priority : Option String
deriving DecidableEq

/-- The parsed external-model analysis consumed by `_combine_analyses`.
`ai_risk_assessment = none` models `ai_analysis.get("ai_risk_assessment",
{})` yielding an object without `overall_risk`; `ai_insights` is an
opaque JSON object payload carried through verbatim. -/
structure AIAnalysis where
  ai_violations : List AIViolation
  ai_recommendations : List AIRecommendation
  ai_risk_assessment : Option RiskAssessment
  ai_insights : List (String × String)
deriving DecidableEq

/-- `MistralDPAAnalyzer._is_duplicate_violation` (`mistral_analyzer.py`
lines 559-572): a candidate is a duplicate when, against one and the same
violation already in the list, its lowercased section mutually
substring-matches the violation's `section` and its lowercased type
mutually substring-matches the violation's `violation`. -/
def is_duplicate_violation (ai_violation : AIViolation)
    (baseline_violations : List KBViolation) : Bool :=
  let ai_section := pyLower (ai_violation.sec.getD "")
  let ai_type := pyLower (ai_violation.violation_type.getD "")
  baseline_violations.any fun baseline =>
    let baseline_section := pyLower baseline.sec
    let baseline_type := pyLower baseline.violation
    (pyIn ai_section baseline_section || pyIn baseline_section ai_section)
      && (pyIn ai_type baseline_type || pyIn baseline_type ai_type)

/-- The standard-format conversion `_combine_analyses` applies to a
non-duplicate external violation (`mistral_analyzer.py` lines 511-520).
Note the source fills `title` from the `section` key, with a different
default. -/
def standard_violation (ai_violation : AIViolation) : KBViolation :=
  { sec := ai_violation.sec.getD "AI-Detected"
    title := ai_violation.sec.getD "AI-Detected Violation"
    violation := ai_violation.violation_type.getD "ai_detected"
    severity := ai_violation.severity.getD "MEDIUM"
    description := ai_violation.description.getD ""
    details := some (ai_violation.legal_basis.getD "")
    confidence := some (ai_violation.confidence.getD "0.8")
    source := some "mistral_ai"
    dpa_reference := none }

/-- The external-violation merge loop of `_combine_analyses`.  In the source
`baseline_violations` aliases the very list being appended to
(`combined["violations"]`), so each candidate is deduplicated against the
baseline violations AND the candidates already appended — hence the
accumulator below is both the dedup reference and the output. -/
def merge_violations (acc : List KBViolation) :
    List AIViolation → List KBViolation
  | [] => acc
  | v :: rest =>
    if is_duplicate_violation v acc then merge_violations acc rest
    else merge_violations (acc ++ [standard_violation v]) rest

/-- `MistralDPAAnalyzer._is_duplicate_recommendation` (`mistral_analyzer.py`
lines 574-584). -/
def is_duplicate_recommendation (ai_rec : AIRecommendation)
    (baseline_recommendations : List Recommendation) : Bool :=
  let ai_action := pyLower (ai_rec.action.getD "")
  baseline_recommendations.any fun baseline =>
    let baseline_action := pyLower baseline.action
    pyIn ai_action baseline_action || pyIn baseline_action ai_action

/-- The standard-format conversion for a merged external recommendation
(`mistral_analyzer.py` lines 529-536). -/
def standard_recommendation (ai_rec : AIRecommendation) : Recommendation :=
  { priority := ai_rec.priority.getD "MEDIUM"
    action := ai_rec.action.getD ""
    description := ai_rec.description.getD ""
    section_reference := ai_rec.section_reference.getD "AI Analysis"
    implementation := some (ai_rec.implementation.getD "")
    source := some "mistral_ai" }

/-- The external-recommendation merge loop of `_combine_analyses`; the same
list aliasing as in `merge_violations` applies. -/
def merge_recommendations (acc : List Recommendation) :
    List AIRecommendation → List Recommendation
  | [] => acc
  | r :: rest =>
    if is_duplicate_recommendation r acc then merge_recommendations acc rest
    else merge_recommendations (acc ++ [standard_recommendation r]) rest

/-- The fixed risk order of `_combine_analyses`:
`risk_levels = ["LOW", "MEDIUM", "HIGH", "CRITICAL"]`. -/
def risk_levels : List String := ["LOW", "MEDIUM", "HIGH", "CRITICAL"]

/-- Python `risk_levels.index(r)`.  The source raises `ValueError` for a
string outside the list (aborting the AI-enhanced analysis); here the
out-of-range sentinel is the list's length, and every verified property
about the merged risk assumes both inputs are valid levels. -/
def riskIndex (r : String) : Nat := risk_levels.indexOf r

/-- The reconciled analysis record produced by `_combine_analyses`:
the baseline fields, the merged violation/recommendation lists, the merged
risk, and the AI fields the source adds (`ai_risk_level` only when the
external assessment carried a truthy `overall_risk`). -/
structure CombinedAnalysis where
  compliance_status : String
  risk_level : String
  violations : List KBViolation
  recommendations : List Recommendation
  analysis_metadata : KBV2.AnalysisMetadata
  ai_risk_level : Option String
  ai_risk_assessment : Option RiskAssessment
  ai_insights : List (String × String)
deriving DecidableEq

/-- `MistralDPAAnalyzer._combine_analyses` (`mistral_analyzer.py`
lines 497-557): merge the external violations and recommendations into the
baseline with duplicate suppression, raise the risk level to the maximum of
baseline and external indices when the external assessment carries a truthy
`overall_risk`, and recompute `compliance_status` to `NON-COMPLIANT`
whenever the merged violation list is non-empty (otherwise the baseline
status is kept). -/
def combine_analyses (baseline_analysis : KBV2.KBAnalysis)
    (ai_analysis : AIAnalysis) : CombinedAnalysis :=
  let violations :=
    merge_violations baseline_analysis.violations ai_analysis.ai_violations
  let recommendations :=
    merge_recommendations baseline_analysis.recommendations
      ai_analysis.ai_recommendations
  let riskPair : String × Option String :=
    match ai_analysis.ai_risk_assessment with
    | some ai_risk =>
      match ai_risk.overall_risk with
      | some r =>
        if r ≠ "" then
          (risk_levels.getD
             (max (riskIndex baseline_analysis.risk_level) (riskIndex r)) "LOW",
           some r)
        else (baseline_analysis.risk_level, none)
      | none => (baseline_analysis.risk_level, none)
    | none => (baseline_analysis.risk_level, none)
  { compliance_status :=
      if violations.isEmpty then baseline_analysis.compliance_status
      else "NON-COMPLIANT"
    risk_level := riskPair.1
    violations := violations
    recommendations := recommendations
    analysis_metadata := baseline_analysis.analysis_metadata
    ai_risk_level := riskPair.2
    ai_risk_assessment := ai_analysis.ai_risk_assessment
    ai_insights := ai_analysis.ai_insights }

/-- The report `analyze_image_document` returns; the fields of the happy
path are filled by `analyze_document_with_ai`, the error path fills them
from literals (`mistral_analyzer.py` lines 95-122).  Metadata is reduced to
the two fields the error path sets. -/
structure ImageReport where
  document_name : String
  analysis_date : String
  compliance_status : String
  risk_level : String
  violations : List KBViolation
  recommendations : List Recommendation
  pii_summary : PIICategorized
  analysis_type : String
  analysis_error : Option String
  extracted_text : String
deriving DecidableEq

/-- The error report built in the `except` branch of
`analyze_image_document` (`mistral_analyzer.py` lines 95-122), with the
caught exception rendered as the string `e` and `datetime.now().isoformat()`
threaded as `now`. -/
def image_error_report (document_name now e : String) : ImageReport :=
  { document_name := document_name
    analysis_date := now
    compliance_status := "ERROR"
    risk_level := "UNKNOWN"
    violations := []
    recommendations :=
      [{ priority := "HIGH"
         action := "Manual review required"
         description := "Image analysis failed: " ++ e
         section_reference := "System Error"
         implementation := none, source := none }]
    pii_summary :=
      { total_pii_count := 0, sensitive_count := 0, regular_count := 0
        regular_pii := [], sensitive_pii := [] }
    analysis_type := "image_analysis_failed"
    analysis_error := some e
    extracted_text := "Text extraction failed" }

/-- `MistralDPAAnalyzer.analyze_image_document` (`mistral_analyzer.py`
lines 65-122), with its `try` body — OCR, PII detection and the AI-enhanced
analysis, all effectful — abstracted as the `attempt` argument: on success
the body's report is returned, and on any exception the function returns
(never raises) the fixed error report. -/
def analyze_image_document (document_name now : String)
    (attempt : Except String ImageReport) : ImageReport :=
  match attempt with
  | .ok result => result
  | .error e => image_error_report document_name now e

end Mistral

/-! ## Definitions modelled from the specification's words

The following definitions are written from the specification, not from the
source; each is compared against the corresponding source-derived
definition by the theorems below. -/

/-- Modelled from the spec (§4.3): the risk-level precedence ladder as the
specification states it — CRITICAL if any violation has severity CRITICAL
or the sensitive count exceeds 5; else HIGH if any violation has severity
HIGH or the total count exceeds 10; else MEDIUM if any violation exists;
else LOW.  (The source additionally short-circuits an empty violation list
to LOW before this ladder.) -/
def risk_level_claim (violations : List Checker.CheckerViolation)
    (pii_categorized : PIICategorized) : String :=
  if violations.any (fun v => v.severity == "CRITICAL")
      || pii_categorized.sensitive_count > 5 then "CRITICAL"
  else if violations.any (fun v => v.severity == "HIGH")
      || pii_categorized.total_pii_count > 10 then "HIGH"
  else if !violations.isEmpty then "MEDIUM"
  else "LOW"

/-- Modelled from the spec (§4.4 step 3): the maximum of two risk levels
under the total order LOW < MEDIUM < HIGH < CRITICAL, positions taken in
the order's list. -/
def risk_max (a b : String) : String :=
  if Mistral.riskIndex a ≤ Mistral.riskIndex b then b else a

/-- Modelled from the spec (§4.1): a section id read as a decimal number,
for the "ties broken by ascending section id" ordering of the claimed
search contract. -/
def idNat (s : String) : Nat :=
  s.data.foldl (fun n c => n * 10 + (c.toNat - 48)) 0

/-- Modelled from the spec (§4.1): the claimed search ordering — higher
score first, ties by ascending numeric section id. -/
def claimBefore (a b : KBV2.SearchResult) : Bool :=
  KBV2.relevanceKey a > KBV2.relevanceKey b
    || (KBV2.relevanceKey a == KBV2.relevanceKey b && idNat a.sec < idNat b.sec)

/-- Insertion step of the sort for `search_content_claim`. -/
def insertClaim (a : KBV2.SearchResult) :
    List KBV2.SearchResult → List KBV2.SearchResult
  | [] => [a]
  | b :: l => if claimBefore b a then b :: insertClaim a l else a :: b :: l

/-- Sort for `search_content_claim` under `claimBefore`. -/
def sortClaim : List KBV2.SearchResult → List KBV2.SearchResult
  | [] => []
  | a :: l => insertClaim a (sortClaim l)

/-- Modelled from the spec (§4.1): `search(keyword, limit)` as the
specification describes it — every section scored by term frequency in
content with title occurrences weighted twice, ranked by score with ties
broken by ascending section id, truncated to `limit`. -/
def search_content_claim (kb : KBV2.KBState) (keyword : String) (limit : Nat) :
    List KBV2.SearchResult :=
  let keyword_lower := pyLower keyword
  let candidates := kb.sections.filterMap fun p =>
    let score := countOccur keyword_lower (pyLower p.2.content)
      + 2 * countOccur keyword_lower (pyLower p.2.title)
    if score > 0 then
      some { type := "section_content", sec := p.1, title := p.2.title
             relevance := some score }
    else none
  (sortClaim candidates).take limit

/-! ## Concrete inputs used by the counterexamples and witnesses -/

/-- The knowledge base loaded without a backing data file. -/
def emptyKB : KBV2.KBState := KBV2.load_knowledge_base none

/-- A categorization with one regular and no sensitive detected item. -/
def piiOneRegular : PIICategorized :=
  { regular_pii := [{ entity_type := "PERSON", text := "Juan", start := 0
                      stop := 4, confidence := "0.85", is_sensitive := false
                      sensitive := none }]
    sensitive_pii := []
    total_pii_count := 1
    sensitive_count := 0
    regular_count := 1 }

/-- A categorization recording six sensitive detected items. -/
def piiSensitiveSix : PIICategorized :=
  { regular_pii := [], sensitive_pii := []
    total_pii_count := 6, sensitive_count := 6, regular_count := 0 }

/-- A two-section knowledge base on which the source's search ranking and
the specified search ranking disagree: section 1 matches the keyword three
times in the title and once in the content, section 2 twice in the
content. -/
def kbSearchEx : KBV2.KBState :=
  { sections := [("1", { title := "kw kw kw", content := "kw" }),
                 ("2", { title := "none", content := "kw kw" })]
    definitions := [], penalties := [], rights := [], functions := []
    principles := [], compliance_rules := [], search_index := [] }

/-- An external-model violation candidate for Section 12. -/
def aiViolationS12 : Mistral.AIViolation :=
  { sec := some "Section 12", violation_type := some "unauthorized_processing"
    severity := some "HIGH", description := some "d", legal_basis := some "l"
    confidence := none }

/-- A baseline analysis with no violations and risk LOW. -/
def baselineEmptyAnalysis : KBV2.KBAnalysis :=
  { compliance_status := "COMPLIANT", risk_level := "LOW", violations := []
    recommendations := []
    analysis_metadata := { knowledge_base_version := "v2", analysis_date := "t"
                           sections_analyzed := 0, total_pii_found := 0 } }

/-- An external analysis carrying the same violation candidate twice and no
risk assessment. -/
def aiTwoDuplicates : Mistral.AIAnalysis :=
  { ai_violations := [aiViolationS12, aiViolationS12], ai_recommendations := []
    ai_risk_assessment := none, ai_insights := [] }

/-- A baseline analysis at risk level MEDIUM. -/
def baselineMedium : KBV2.KBAnalysis :=
  { compliance_status := "COMPLIANT", risk_level := "MEDIUM", violations := []
    recommendations := []
    analysis_metadata := { knowledge_base_version := "v2", analysis_date := "t"
                           sections_analyzed := 0, total_pii_found := 0 } }

/-- An external analysis whose risk assessment is HIGH. -/
def aiRiskHigh : Mistral.AIAnalysis :=
  { ai_violations := [], ai_recommendations := []
    ai_risk_assessment := some { overall_risk := some "HIGH", risk_factors := []
                                 mitigation_priority := none }
    ai_insights := [] }

/-! ## Helper lemmas -/

/-- An association-list lookup misses every list whose keys all differ from
the query. -/
theorem lookup_eq_none_of_keys_ne {β : Type} (n : String)
    (l : List (String × β)) (h : ∀ p ∈ l, p.1 ≠ n) : l.lookup n = none := by
  induction l with
  | nil => rfl
  | cons a t ih =>
    have ha : (n == a.1) = false :=
      beq_eq_false_iff_ne.mpr fun hh => (h a (by simp)) hh.symm
    simp only [List.lookup, ha]
    exact ih fun p hp => h p (by simp [hp])

/-- The merge loop of `_combine_analyses` only ever appends: its result is
the accumulator followed by converted external violations, each tagged
`source = "mistral_ai"`. -/
theorem merge_violations_extra (l : List Mistral.AIViolation) :
    ∀ acc, ∃ extra, Mistral.merge_violations acc l = acc ++ extra
      ∧ (∀ v ∈ extra, v.source = some "mistral_ai")
      ∧ (∀ v ∈ extra, ∃ a ∈ l, v = Mistral.standard_violation a) := by
  induction l with
  | nil => exact fun acc => ⟨[], by simp [Mistral.merge_violations]⟩
  | cons x rest ih =>
    intro acc
    by_cases hdup : Mistral.is_duplicate_violation x acc = true
    · obtain ⟨extra, he, hs, hp⟩ := ih acc
      refine ⟨extra, ?_, hs, ?_⟩
      · simp only [Mistral.merge_violations]
        rw [if_pos hdup]
        exact he
      · exact fun v hv => (hp v hv).imp fun a ⟨hm, hq⟩ => ⟨by simp [hm], hq⟩
    · obtain ⟨extra, he, hs, hp⟩ := ih (acc ++ [Mistral.standard_violation x])
      refine ⟨Mistral.standard_violation x :: extra, ?_, ?_, ?_⟩
      · simp only [Mistral.merge_violations]
        rw [if_neg hdup, he, List.append_assoc]
        rfl
      · intro v hv
        rcases List.mem_cons.1 hv with rfl | hv
        · rfl
        · exact hs v hv
      · intro v hv
        rcases List.mem_cons.1 hv with rfl | hv
        · exact ⟨x, by simp, rfl⟩
        · exact (hp v hv).imp fun a ⟨hm, hq⟩ => ⟨by simp [hm], hq⟩

/-! ## Claim theorems -/

/-- C10: when image analysis fails with any exception,
`analyze_image_document` returns (does not raise) a report whose
`compliance_status` is the string `"ERROR"` — outside the
COMPLIANT/NON-COMPLIANT enumeration — whose `risk_level` is `"UNKNOWN"`,
whose violations list is empty, and whose recommendations are exactly one
HIGH-priority "Manual review required" entry. -/
theorem image_analysis_error_report (document_name now e : String) :
    (Mistral.analyze_image_document document_name now (Except.error e)).compliance_status = "ERROR"
    ∧ (Mistral.analyze_image_document document_name now (Except.error e)).compliance_status ≠ "COMPLIANT"
    ∧ (Mistral.analyze_image_document document_name now (Except.error e)).compliance_status ≠ "NON-COMPLIANT"
    ∧ (Mistral.analyze_image_document document_name now (Except.error e)).risk_level = "UNKNOWN"
    ∧ (Mistral.analyze_image_document document_name now (Except.error e)).violations = []
    ∧ (Mistral.analyze_image_document document_name now (Except.error e)).recommendations
      = [{ priority := "HIGH", action := "Manual review required"
           description := "Image analysis failed: " ++ e
           section_reference := "System Error"
           implementation := none, source := none }] := by
  refine ⟨rfl, ?_, ?_, rfl, rfl, rfl⟩ <;>
    simp [Mistral.analyze_image_document, Mistral.image_error_report]

/-- C8: knowledge-base lookups never raise — `get_section` yields the empty
sentinel for every id absent from the sections dict, and with no backing
data file the knowledge base loads empty and every query (section,
definition, penalty, search) returns an empty result. -/
theorem kb_lookups_total :
    (∀ (kb : KBV2.KBState) (n : String), (∀ p ∈ kb.sections, p.1 ≠ n) →
      KBV2.get_section kb n = none)
    ∧ (∀ n, KBV2.get_section (KBV2.load_knowledge_base none) n = none)
    ∧ (∀ t, KBV2.get_definition (KBV2.load_knowledge_base none) t = none)
    ∧ (∀ n, KBV2.get_penalty_info (KBV2.load_knowledge_base none) n = none)
    ∧ (∀ keyword limit,
        KBV2.search_content (KBV2.load_knowledge_base none) keyword limit = []) := by
  refine ⟨?_, ?_, ?_, ?_, ?_⟩
  · exact fun kb n h => lookup_eq_none_of_keys_ne n kb.sections h
  · intro n; rfl
  · intro t; rfl
  · intro n; rfl
  · intro keyword limit
    simp only [KBV2.search_content, KBV2.load_knowledge_base, List.lookup,
      List.filterMap_nil, List.append_nil]
    split <;> simp [KBV2.sortDesc]

/-- Membership in a conditional singleton list. -/
theorem mem_ite_singleton {α : Type} {c : Prop} [Decidable c] {x r : α} :
    r ∈ (if c then [x] else []) ↔ c ∧ r = x := by
  split <;> simp_all

/-- any over a conditional singleton list. -/
theorem any_ite_singleton {α : Type} {c : Prop} [Decidable c] {x : α}
    {f : α → Bool} : (if c then [x] else []).any f = (decide c && f x) := by
  split <;> simp_all

/-- Positivity of countP as the Boolean any. -/
theorem countP_pos_eq_any {α : Type} (p : α → Bool) (l : List α) :
    decide (0 < l.countP p) = l.any p := by
  rw [Bool.eq_iff_iff]
  simp [List.countP_pos_iff, List.any_eq_true]

/-- The security rule never reports any violation type other than
`inadequate_security`. -/
theorem check_security_only_security (text : String)
    (section_20_data : Option SectionRec) (ty : String)
    (hty : ty ≠ "inadequate_security") :
    (Checker.check_security_violations text section_20_data).any
      (fun v => decide (v.violation_type = ty)) = false := by
  unfold Checker.check_security_violations
  split <;> simp [Checker.security_violation]
  exact fun h => hty h.symm

/-- C7: the rule-based evaluator emits at most one `inadequate_security`
violation, and the one it emits reports the first pattern, in the fixed
pattern order, that matches the text. -/
theorem security_first_match_only (text : String)
    (section_20_data : Option SectionRec) :
    (Checker.check_security_violations text section_20_data).length ≤ 1
    ∧ ∀ v ∈ Checker.check_security_violations text section_20_data,
        ∃ p l₁ l₂, Checker.unencrypted_patterns = l₁ ++ p :: l₂
          ∧ searchWord p text = true
          ∧ (∀ q ∈ l₁, searchWord q text = false)
          ∧ v = Checker.security_violation p section_20_data := by
  constructor
  · unfold Checker.check_security_violations
    split <;> simp
  · intro v hv
    unfold Checker.check_security_violations at hv
    split at hv
    case h_1 p hp =>
      rw [List.find?_eq_some] at hp
      obtain ⟨hmatch, l₁, l₂, hsplit, hbefore⟩ := hp
      rcases List.mem_singleton.1 hv with rfl
      exact ⟨p, l₁, l₂, hsplit, hmatch, fun q hq => by
        simpa using hbefore q hq, rfl⟩
    case h_2 => simp at hv

/-- C1: on both analysis paths — the traditional rule-based report and the
reconciled report over the knowledge-base baseline — `compliance_status`
is `"NON-COMPLIANT"` exactly when the violations list is non-empty (and
`"COMPLIANT"` otherwise, these being the only two values produced). -/
theorem compliance_status_iff_violations :
    (∀ kb text document_name now pii ci pi,
      ((Checker.traditional_analysis kb text document_name now pii ci pi).compliance_status
          = "NON-COMPLIANT"
        ↔ (Checker.traditional_analysis kb text document_name now pii ci pi).violations ≠ [])
      ∧ ((Checker.traditional_analysis kb text document_name now pii ci pi).compliance_status
          = "COMPLIANT"
        ↔ (Checker.traditional_analysis kb text document_name now pii ci pi).violations = []))
    ∧ (∀ kb text pii now ai,
      ((Mistral.combine_analyses (KBV2.get_comprehensive_analysis kb text pii now) ai).compliance_status
          = "NON-COMPLIANT"
        ↔ (Mistral.combine_analyses (KBV2.get_comprehensive_analysis kb text pii now) ai).violations ≠ [])
      ∧ ((Mistral.combine_analyses (KBV2.get_comprehensive_analysis kb text pii now) ai).compliance_status
          = "COMPLIANT"
        ↔ (Mistral.combine_analyses (KBV2.get_comprehensive_analysis kb text pii now) ai).violations = [])) := by
  constructor
  · intro kb text document_name now pii ci pi
    cases hv : Checker.check_violations kb text pii ci pi with
    | nil => simp [Checker.traditional_analysis, hv]
    | cons a t => simp [Checker.traditional_analysis, hv]
  · intro kb text pii now ai
    have hcv :
        (Mistral.combine_analyses (KBV2.get_comprehensive_analysis kb text pii now) ai).violations
          = Mistral.merge_violations (KBV2.check_violation kb text pii)
              ai.ai_violations := rfl
    have hcs :
        (Mistral.combine_analyses (KBV2.get_comprehensive_analysis kb text pii now) ai).compliance_status
          = if (Mistral.merge_violations (KBV2.check_violation kb text pii)
                  ai.ai_violations).isEmpty
            then (if (KBV2.check_violation kb text pii).isEmpty then "COMPLIANT"
                  else "NON-COMPLIANT")
            else "NON-COMPLIANT" := rfl
    rw [hcv, hcs]
    obtain ⟨extra, he, -, -⟩ :=
      merge_violations_extra ai.ai_violations (KBV2.check_violation kb text pii)
    cases hm : Mistral.merge_violations (KBV2.check_violation kb text pii)
        ai.ai_violations with
    | nil =>
      have hb : KBV2.check_violation kb text pii = [] := by
        rw [hm] at he
        exact (List.append_eq_nil.1 he.symm).1
      simp [hb]
    | cons a t => simp

/-- C2 counterexample: at the concrete input of an empty violations list
and a categorization counting six sensitive items, the source's
`_assess_risk_level` returns LOW, while the precedence ladder the claim
states (CRITICAL when the sensitive count exceeds 5, before any emptiness
test) returns CRITICAL. -/
theorem assess_risk_level_claim_cex :
    Checker.assess_risk_level [] piiSensitiveSix = "LOW"
    ∧ risk_level_claim [] piiSensitiveSix = "CRITICAL" := by decide

/-- C2 amended: the source first short-circuits an empty violations list to
LOW; only for a non-empty list does the claimed precedence ladder (CRITICAL
on a CRITICAL severity or sensitive count above 5; else HIGH on a HIGH
severity or total count above 10; else MEDIUM) apply. -/
theorem assess_risk_level_amended (violations : List Checker.CheckerViolation)
    (pii_categorized : PIICategorized) :
    Checker.assess_risk_level violations pii_categorized
      = if violations.isEmpty then "LOW"
        else risk_level_claim violations pii_categorized := by
  cases violations with
  | nil => rfl
  | cons v t =>
    simp only [Checker.assess_risk_level, risk_level_claim, List.isEmpty_cons,
      Bool.false_eq_true, if_false, Bool.not_false, Bool.or_true, if_true]
    rw [countP_pos_eq_any, countP_pos_eq_any]

/-- C6 counterexample: at the concrete input of no violations and a
categorization with one regular and zero sensitive items, the general
privacy-impact-assessment recommendation is present even though no
sensitive item was detected, contradicting the claim that it appears
exactly when a sensitive item exists. -/
theorem privacy_impact_recommendation_cex :
    ((Checker.generate_recommendations [] piiOneRegular).any
      (fun r => r.action == "Conduct privacy impact assessment")) = true
    ∧ piiOneRegular.sensitive_count = 0 := by decide

/-- C6 amended: the general "Conduct privacy impact assessment"
recommendation is appended exactly when at least one item of any kind was
detected (`total_pii_count > 0`), regardless of which violations fired. -/
theorem privacy_impact_recommendation_iff
    (violations : List Checker.CheckerViolation)
    (pii_categorized : PIICategorized) :
    (∃ r ∈ Checker.generate_recommendations violations pii_categorized,
        r.action = "Conduct privacy impact assessment")
      ↔ 0 < pii_categorized.total_pii_count := by
  have hany : (Checker.generate_recommendations violations pii_categorized).any
      (fun r => decide (r.action = "Conduct privacy impact assessment"))
      = decide (0 < pii_categorized.total_pii_count) := by
    simp only [Checker.generate_recommendations, List.any_append,
      any_ite_singleton]
    simp
  constructor
  · rintro ⟨r, hr, ha⟩
    have hb : (Checker.generate_recommendations violations pii_categorized).any
        (fun r => decide (r.action = "Conduct privacy impact assessment"))
        = true := List.any_eq_true.2 ⟨r, hr, by simpa using ha⟩
    rw [hany] at hb
    simpa using hb
  · intro h
    have : (Checker.generate_recommendations violations pii_categorized).any
        (fun r => decide (r.action = "Conduct privacy impact assessment"))
        = true := by rw [hany]; simpa using h
    obtain ⟨r, hr, hp⟩ := List.any_eq_true.1 this
    exact ⟨r, hr, by simpa using hp⟩

/-- C3 counterexample: at the concrete input of a document with one
regular (non-sensitive) detected item, no consent indicators and empty
text, the unauthorized-processing violation fires even though the
sensitive-item count is zero, contradicting the claim that the rule
requires a sensitive item. -/
theorem unauthorized_processing_cex :
    ((Checker.check_violations emptyKB "" piiOneRegular [] []).any
      (fun v => v.violation_type == "unauthorized_processing")) = true
    ∧ piiOneRegular.sensitive_count = 0 := by decide

/-- C3 amended: the unauthorized-processing rule (Section 12, severity
HIGH) fires exactly when the total detected-item count (sensitive or not)
is positive and no consent-language indicator is present. -/
theorem unauthorized_processing_iff (kb : KBV2.KBState) (text : String)
    (pii_categorized : PIICategorized)
    (consent_indicators purpose_indicators : List Indicator) :
    (∃ v ∈ Checker.check_violations kb text pii_categorized
        consent_indicators purpose_indicators,
        v.violation_type = "unauthorized_processing")
      ↔ (0 < pii_categorized.total_pii_count ∧ consent_indicators = []) := by
  have hany : (Checker.check_violations kb text pii_categorized
        consent_indicators purpose_indicators).any
      (fun v => decide (v.violation_type = "unauthorized_processing"))
      = (decide (0 < pii_categorized.total_pii_count)
          && consent_indicators.isEmpty) := by
    simp only [Checker.check_violations, List.any_append, any_ite_singleton,
      check_security_only_security text (KBV2.get_section kb "20")
        "unauthorized_processing" (by decide)]
    have hie : consent_indicators.isEmpty = decide (consent_indicators = []) := by
      cases consent_indicators <;> simp
    rw [hie]
    simp
  constructor
  · rintro ⟨v, hv, ha⟩
    have hb : (Checker.check_violations kb text pii_categorized
          consent_indicators purpose_indicators).any
        (fun v => decide (v.violation_type = "unauthorized_processing"))
        = true := List.any_eq_true.2 ⟨v, hv, by simpa using ha⟩
    rw [hany] at hb
    simp only [Bool.and_eq_true, decide_eq_true_eq, List.isEmpty_iff] at hb
    exact hb
  · intro h
    have : (Checker.check_violations kb text pii_categorized
          consent_indicators purpose_indicators).any
        (fun v => decide (v.violation_type = "unauthorized_processing"))
        = true := by
      rw [hany]
      simp [h.1, h.2]
    obtain ⟨v, hv, hp⟩ := List.any_eq_true.1 this
    exact ⟨v, hv, by simpa using hp⟩

/-- C4 counterexample: at the concrete input of an empty baseline and an
external result carrying the same Section 12 candidate twice, only one
violation is appended (the second candidate is suppressed against the
already-merged first, though no baseline violation matches it), and the
appended violation is tagged `source = "mistral_ai"`, not
`"external_model"`. -/
theorem reconciliation_dedup_cex :
    (Mistral.combine_analyses baselineEmptyAnalysis aiTwoDuplicates).violations.length = 1
    ∧ (Mistral.combine_analyses baselineEmptyAnalysis aiTwoDuplicates).violations.map
        (fun v => v.source) = [some "mistral_ai"] := by decide

/-- Duplicate detection is monotone in the reference list: a candidate that
matches some violation of a list also matches some violation of any
superset. -/
theorem is_duplicate_violation_mono (v : Mistral.AIViolation)
    (acc acc' : List KBViolation) (hsub : acc ⊆ acc')
    (h : Mistral.is_duplicate_violation v acc = true) :
    Mistral.is_duplicate_violation v acc' = true := by
  simp only [Mistral.is_duplicate_violation, List.any_eq_true] at h ⊢
  obtain ⟨b, hb, hcond⟩ := h
  exact ⟨b, hsub hb, hcond⟩

/-- Completeness of the merge loop of `_combine_analyses`: a candidate that
is not a duplicate of the final merged list has its converted record in
that list (its processing-time reference list is a prefix of the final
list, so by monotonicity it was not a duplicate then either, and the loop
appended it). -/
theorem merge_violations_complete (l : List Mistral.AIViolation) :
    ∀ acc a, a ∈ l →
      Mistral.is_duplicate_violation a (Mistral.merge_violations acc l) = false →
      Mistral.standard_violation a ∈ Mistral.merge_violations acc l := by
  induction l with
  | nil =>
    intro acc a ha
    cases ha
  | cons x rest ih =>
    intro acc a ha hnd
    by_cases hdup : Mistral.is_duplicate_violation x acc = true
    · have hmeq : Mistral.merge_violations acc (x :: rest)
          = Mistral.merge_violations acc rest := by
        simp only [Mistral.merge_violations]
        rw [if_pos hdup]
      rcases List.mem_cons.1 ha with rfl | ha'
      · exfalso
        obtain ⟨extra, he, -, -⟩ := merge_violations_extra rest acc
        have hd : Mistral.is_duplicate_violation a
            (Mistral.merge_violations acc rest) = true :=
          is_duplicate_violation_mono a acc _
            (by rw [he]; exact List.subset_append_left _ _) hdup
        rw [hmeq, hd] at hnd
        cases hnd
      · rw [hmeq] at hnd ⊢
        exact ih acc a ha' hnd
    · have hmeq : Mistral.merge_violations acc (x :: rest)
          = Mistral.merge_violations (acc ++ [Mistral.standard_violation x])
              rest := by
        simp only [Mistral.merge_violations]
        rw [if_neg hdup]
      rcases List.mem_cons.1 ha with rfl | ha'
      · rw [hmeq]
        obtain ⟨extra, he, -, -⟩ :=
          merge_violations_extra rest (acc ++ [Mistral.standard_violation a])
        rw [he]
        exact List.mem_append_left _ (List.mem_append_right _ (by simp))
      · rw [hmeq] at hnd ⊢
        exact ih _ a ha' hnd

/-- C4 amended: reconciliation appends every non-duplicate secondary
violation after all baseline violations, tagged `source = "mistral_ai"`,
with each appended record converted from a secondary candidate; a
candidate is suppressed as a duplicate exactly when its section and its
violation type each mutually substring-match (case-insensitively) the
`section` and `violation` fields of one and the same violation already in
the merged list (baseline violations together with previously appended
secondary ones).  The four parts: (1) the merged list extends the baseline
by tagged conversions of candidates only; (2) the duplicate test is the
mutual-substring match against one and the same reference violation;
(3) at each step a duplicate candidate contributes nothing, while a
non-duplicate candidate's conversion is appended directly after the
current merged list; (4) every candidate that is not a duplicate of the
final merged list has its conversion in the merged result. -/
theorem reconciliation_merge_amended :
    (∀ (baseline : KBV2.KBAnalysis) (ai : Mistral.AIAnalysis),
      ∃ extra, (Mistral.combine_analyses baseline ai).violations
          = baseline.violations ++ extra
        ∧ (∀ v ∈ extra, v.source = some "mistral_ai")
        ∧ (∀ v ∈ extra, ∃ a ∈ ai.ai_violations, v = Mistral.standard_violation a))
    ∧ (∀ (aiv : Mistral.AIViolation) (acc : List KBViolation),
        Mistral.is_duplicate_violation aiv acc = true
          ↔ ∃ b ∈ acc,
            (pyIn (pyLower (aiv.sec.getD "")) (pyLower b.sec) = true
              ∨ pyIn (pyLower b.sec) (pyLower (aiv.sec.getD "")) = true)
            ∧ (pyIn (pyLower (aiv.violation_type.getD "")) (pyLower b.violation) = true
              ∨ pyIn (pyLower b.violation) (pyLower (aiv.violation_type.getD "")) = true))
    ∧ (∀ (acc : List KBViolation) (v : Mistral.AIViolation)
        (rest : List Mistral.AIViolation),
        (Mistral.is_duplicate_violation v acc = true →
          Mistral.merge_violations acc (v :: rest)
            = Mistral.merge_violations acc rest)
        ∧ (Mistral.is_duplicate_violation v acc = false →
          ∃ extra, Mistral.merge_violations acc (v :: rest)
            = acc ++ Mistral.standard_violation v :: extra))
    ∧ (∀ (baseline : KBV2.KBAnalysis) (ai : Mistral.AIAnalysis)
        (a : Mistral.AIViolation), a ∈ ai.ai_violations →
        Mistral.is_duplicate_violation a
          ((Mistral.combine_analyses baseline ai).violations) = false →
        Mistral.standard_violation a
          ∈ (Mistral.combine_analyses baseline ai).violations) := by
  refine ⟨?_, ?_, ?_, ?_⟩
  · intro baseline ai
    obtain ⟨extra, he, hs, hp⟩ :=
      merge_violations_extra ai.ai_violations baseline.violations
    exact ⟨extra, he, hs, hp⟩
  · intro aiv acc
    simp [Mistral.is_duplicate_violation, List.any_eq_true]
  · intro acc v rest
    constructor
    · intro h
      simp only [Mistral.merge_violations]
      rw [if_pos h]
    · intro h
      have hneg : ¬ Mistral.is_duplicate_violation v acc = true := by
        simp [h]
      obtain ⟨extra, he, -, -⟩ :=
        merge_violations_extra rest (acc ++ [Mistral.standard_violation v])
      refine ⟨extra, ?_⟩
      simp only [Mistral.merge_violations]
      rw [if_neg hneg, he, List.append_assoc]
      rfl
  · intro baseline ai a ha hnd
    exact merge_violations_complete ai.ai_violations baseline.violations a ha hnd

/-- C5: when the external result carries a risk assessment with a valid
overall risk, the reconciled risk level is the maximum of the baseline and
external levels under LOW < MEDIUM < HIGH < CRITICAL, and that maximum is
commutative in its two arguments. -/
theorem reconciliation_risk_is_max (baseline : KBV2.KBAnalysis)
    (ai : Mistral.AIAnalysis) (ra : Mistral.RiskAssessment) (r : String)
    (hra : ai.ai_risk_assessment = some ra) (hor : ra.overall_risk = some r)
    (hb : baseline.risk_level ∈ Mistral.risk_levels)
    (hr : r ∈ Mistral.risk_levels) :
    (Mistral.combine_analyses baseline ai).risk_level
        = risk_max baseline.risk_level r
    ∧ risk_max baseline.risk_level r = risk_max r baseline.risk_level := by
  have hne : r ≠ "" := by fin_cases hr <;> decide
  have hb' : baseline.risk_level = "LOW" ∨ baseline.risk_level = "MEDIUM"
      ∨ baseline.risk_level = "HIGH" ∨ baseline.risk_level = "CRITICAL" := by
    simpa [Mistral.risk_levels] using hb
  constructor
  · have hrl : (Mistral.combine_analyses baseline ai).risk_level
        = Mistral.risk_levels.getD
            (max (Mistral.riskIndex baseline.risk_level) (Mistral.riskIndex r))
            "LOW" := by
      simp only [Mistral.combine_analyses, hra, hor]
      rw [if_pos hne]
    rw [hrl]
    rcases hb' with h | h | h | h <;> rw [h] <;> fin_cases hr <;> decide
  · rcases hb' with h | h | h | h <;> rw [h] <;> fin_cases hr <;> decide

/-- C5 witness: the theorem applied at a MEDIUM baseline and a HIGH
external assessment. -/
theorem reconciliation_risk_is_max_witness :
    (Mistral.combine_analyses baselineMedium aiRiskHigh).risk_level
        = risk_max baselineMedium.risk_level "HIGH"
    ∧ risk_max baselineMedium.risk_level "HIGH"
        = risk_max "HIGH" baselineMedium.risk_level :=
  reconciliation_risk_is_max baselineMedium aiRiskHigh
    { overall_risk := some "HIGH", risk_factors := [], mitigation_priority := none }
    "HIGH" rfl rfl (by decide) (by decide)

/-- Membership is preserved by the insertion step of the stable sort. -/
theorem mem_insertDesc (key : KBV2.SearchResult → Nat)
    (a x : KBV2.SearchResult) :
    ∀ l, x ∈ KBV2.insertDesc key a l ↔ x = a ∨ x ∈ l := by
  intro l
  induction l with
  | nil => simp [KBV2.insertDesc]
  | cons b t ih =>
    simp only [KBV2.insertDesc]
    split
    · simp only [List.mem_cons, ih]
      tauto
    · simp [List.mem_cons]

/-- Membership is preserved by the stable sort. -/
theorem mem_sortDesc (key : KBV2.SearchResult → Nat) (x : KBV2.SearchResult) :
    ∀ l, x ∈ KBV2.sortDesc key l ↔ x ∈ l := by
  intro l
  induction l with
  | nil => simp [KBV2.sortDesc]
  | cons a t ih => simp [KBV2.sortDesc, mem_insertDesc, ih]

/-- The insertion step keeps the list ordered by non-increasing key. -/
theorem pairwise_insertDesc (key : KBV2.SearchResult → Nat)
    (a : KBV2.SearchResult) :
    ∀ l, List.Pairwise (fun x y => key y ≤ key x) l →
      List.Pairwise (fun x y => key y ≤ key x) (KBV2.insertDesc key a l) := by
  intro l
  induction l with
  | nil => simp [KBV2.insertDesc]
  | cons b t ih =>
    intro h
    rw [List.pairwise_cons] at h
    obtain ⟨hb, ht⟩ := h
    simp only [KBV2.insertDesc]
    split
    case isTrue hgt =>
      rw [List.pairwise_cons]
      refine ⟨?_, ih ht⟩
      intro x hx
      rcases (mem_insertDesc key a x t).1 hx with rfl | hx
      · omega
      · exact hb x hx
    case isFalse hle =>
      rw [List.pairwise_cons]
      refine ⟨?_, List.pairwise_cons.2 ⟨hb, ht⟩⟩
      intro x hx
      rcases List.mem_cons.1 hx with rfl | hx
      · omega
      · have := hb x hx
        omega

/-- The stable sort of `search_content` orders by non-increasing key. -/
theorem pairwise_sortDesc (key : KBV2.SearchResult → Nat) :
    ∀ l, List.Pairwise (fun x y => key y ≤ key x) (KBV2.sortDesc key l) := by
  intro l
  induction l with
  | nil => simp [KBV2.sortDesc]
  | cons a t ih => exact pairwise_insertDesc key a _ ih

/-- Every index hit comes from the index bucket for the keyword. -/
theorem mem_indexResults (kb : KBV2.KBState) (kl : String) (limit : Nat)
    (r : KBV2.SearchResult) (hr : r ∈ KBV2.indexResults kb kl limit) :
    ∃ entries, kb.search_index.lookup kl = some entries ∧ r ∈ entries := by
  unfold KBV2.indexResults at hr
  split at hr
  case h_1 entries he =>
    exact ⟨entries, he, (List.take_sublist _ _).subset hr⟩
  case h_2 => simp at hr

/-- Every section hit is the section record of a matching stored section. -/
theorem mem_sectionResults (kb : KBV2.KBState) (kl : String)
    (r : KBV2.SearchResult) (hr : r ∈ KBV2.sectionResults kb kl) :
    ∃ p ∈ kb.sections, pyIn kl (pyLower p.2.content) = true
      ∧ r = KBV2.sectionSearchResult kl p := by
  unfold KBV2.sectionResults at hr
  rw [List.mem_filterMap] at hr
  obtain ⟨p, hp, hpr⟩ := hr
  by_cases hc : pyIn kl (pyLower p.2.content) = true
  · rw [if_pos hc] at hpr
    exact ⟨p, hp, hc, (Option.some_injective _ hpr).symm⟩
  · rw [if_neg hc] at hpr
    cases hpr

/-- C9 counterexample: on a concrete two-section knowledge base the
source's search (relevance = content frequency only, no title weighting,
ties in stored order) ranks section 2 first, while the claimed ranking
(content frequency plus twice the title frequency, ties by ascending id)
ranks section 1 first. -/
theorem search_ranking_cex :
    (KBV2.search_content kbSearchEx "kw" 10).map (fun r => r.sec) = ["2", "1"]
    ∧ (search_content_claim kbSearchEx "kw" 10).map (fun r => r.sec)
      = ["1", "2"] := by decide

/-- C9 amended: `search_content` returns at most `limit` results, in
non-increasing order of the stored relevance key (a section hit's relevance
being the occurrence count of the lowercased keyword in the lowercased
section content — title occurrences are not weighted), and every result is
either an entry of the index bucket for the keyword or the record of a
stored section whose content contains the keyword. -/
theorem search_content_amended (kb : KBV2.KBState) (keyword : String)
    (limit : Nat) :
    (KBV2.search_content kb keyword limit).length ≤ limit
    ∧ List.Pairwise (fun x y => KBV2.relevanceKey y ≤ KBV2.relevanceKey x)
        (KBV2.search_content kb keyword limit)
    ∧ ∀ r ∈ KBV2.search_content kb keyword limit,
        (∃ entries, kb.search_index.lookup (pyLower keyword) = some entries
          ∧ r ∈ entries)
        ∨ ∃ p ∈ kb.sections,
            pyIn (pyLower keyword) (pyLower p.2.content) = true
            ∧ r = KBV2.sectionSearchResult (pyLower keyword) p := by
  refine ⟨List.length_take_le _ _, ?_, ?_⟩
  · exact List.Pairwise.sublist (List.take_sublist _ _)
      (pairwise_sortDesc KBV2.relevanceKey _)
  · intro r hr
    have hr1 : r ∈ KBV2.sortDesc KBV2.relevanceKey
        (if (KBV2.indexResults kb (pyLower keyword) limit).length < limit
         then KBV2.indexResults kb (pyLower keyword) limit
            ++ KBV2.sectionResults kb (pyLower keyword)
         else KBV2.indexResults kb (pyLower keyword) limit) :=
      (List.take_sublist _ _).subset hr
    have hr2 := (mem_sortDesc KBV2.relevanceKey r _).1 hr1
    split at hr2
    · rcases List.mem_append.1 hr2 with hi | hs
      · exact Or.inl (mem_indexResults kb _ limit r hi)
      · exact Or.inr (mem_sectionResults kb _ r hs)
    · exact Or.inl (mem_indexResults kb _ limit r hr2)

end DPA
